import Mathlib

/-!
Verification of the `linkedin-auto-posts` repository: a shallow embedding of
`src/post_to_linkedin.py` and `src/config.py` in Lean 4.

The program is a single sequential run invoking external HTTP services.  We
embed each function as a pure Lean function; the responses of the external
services (language-model API, social-network API, webhook, local filesystem)
are supplied as an explicit `Oracle` record, and a run is summarised by a
`RunResult` record: the exit code, the ordered list of outbound network calls,
the invocations of the notification helper, the webhook payloads actually
posted, and the publish payloads actually sent.
-/

namespace LinkedInAutoPosts

/-- Python truthiness of `os.environ.get(...)`: `None` and `""` are falsy. -/
def pyTruthyStr : Option String → Bool
  | none => false
  | some s => !(s == "")

/-- Python `str(...)` applied to the result of `dict.get(key)`:
`None` renders as the string `"None"`. -/
def pyStr : Option String → String
  | none => "None"
  | some s => s

/-- Python `d.get(key, default)` for string-valued optional fields. -/
def pyGetOr : Option String → String → String
  | none, d => d
  | some s, _ => s

/-- `config.POSTING_DAYS` from `src/config.py` lines 38-42:
weekday name → post type. -/
def POSTING_DAYS : List (String × String) :=
  [("sunday", "gene"), ("tuesday", "intervention"), ("thursday", "topic")]

/-- `config.MAX_POST_LENGTH` from `src/config.py` line 48. -/
def MAX_POST_LENGTH : Nat := 3000

/-- One calendar entry as read from `calendar.json`; fields accessed by
`post_to_linkedin.py` (`date`, `week`, `post_type`, `title`, `image_file`).
Optional fields are those the code reads with `dict.get`. -/
structure Post where
  date : Option String
  week : Int
  post_type : String
  title : Option String
  image_file : Option String
deriving DecidableEq

/-- An HTTP response: status code, raw body text, and the body parsed as a
flat JSON object (string-valued fields, as used by the code). -/
structure HttpResp where
  status : Nat
  body : String
  json : List (String × String)
deriving DecidableEq

/-- Response of the upload-registration call, with the two fields the code
extracts from its JSON body. -/
structure RegisterResp where
  status : Nat
  body : String
  uploadUrl : String
  asset : String
deriving DecidableEq

/-- The outbound network calls the script can make. -/
inductive NetCall where
  | claudeGenerate
  | userinfoGet
  | registerUploadPost
  | uploadPut
  | publishPost
  | slackPost
deriving DecidableEq

instance {ε α : Type} [DecidableEq ε] [DecidableEq α] :
    DecidableEq (Except ε α) := fun x y =>
  match x, y with
  | Except.ok a, Except.ok b =>
      decidable_of_iff (a = b) ⟨fun h => by rw [h], fun h => by injection h⟩
  | Except.error a, Except.error b =>
      decidable_of_iff (a = b) ⟨fun h => by rw [h], fun h => by injection h⟩
  | Except.ok _, Except.error _ => isFalse fun h => by injection h
  | Except.error _, Except.ok _ => isFalse fun h => by injection h

/-- Responses of the external world for one run: what each remote service
answers, whether the local image file exists, and whether the webhook
transport succeeds. -/
structure Oracle where
  claudeResult : Except String String
  imageExists : Bool
  userinfoResp : HttpResp
  registerResp : RegisterResp
  uploadStatus : Nat
  publishStatus : Nat
  slackTransportOk : Bool
deriving DecidableEq

/-- CLI flags of `main` (`--dry-run`, `--force`); the `--date` override is
folded into the `TargetDay` input. -/
structure Args where
  dry_run : Bool
  force : Bool
deriving DecidableEq

/-- Environment-derived configuration (`src/config.py` lines 19-27).
`os.environ.get` yields `None` when unset. -/
structure Config where
  anthropic_api_key : Option String
  linkedin_access_token : Option String
  slack_webhook_url : Option String
deriving DecidableEq

/-- The resolved target date: its ISO string (`target_date.isoformat()`) and
its lowercased weekday name (`target_date.strftime("%A").lower()`). -/
structure TargetDay where
  iso : String
  dayName : String
deriving DecidableEq

/-- The JSON payload `create_linkedin_post` POSTs to the posts endpoint
(`src/post_to_linkedin.py` lines 206-223), restricted to its scalar fields. -/
structure PostPayload where
  author : String
  commentary : String
  visibility : String
  lifecycleState : String
  mediaTitle : String
  mediaId : String
  isReshareDisabledByAuthor : Bool
deriving DecidableEq

/-- Summary of one run of `main`. -/
structure RunResult where
  exitCode : Nat
  calls : List NetCall
  notifyInvocations : List (String × Bool)
  slackPayloads : List String
  published : List PostPayload
deriving DecidableEq

/-- `get_todays_post` (`src/post_to_linkedin.py` lines 43-57): first entry
whose `date` field equals the target ISO string, else `none`. -/
def get_todays_post (calendar : List Post) (target_str : String) : Option Post :=
  match calendar with
  | [] => none
  | p :: rest =>
      if p.date == some target_str then some p else get_todays_post rest target_str

/-- `get_person_urn` (`src/post_to_linkedin.py` lines 105-124).  Returns the
network calls issued, the log lines written, and the result: an error for a
non-200 status, else the URN built from the `sub` field of the JSON body. -/
def get_person_urn (resp : HttpResp) :
    List NetCall × List String × Except String String :=
  ([NetCall.userinfoGet],
    if resp.status ≠ 200 then
      (["Failed to get user info: " ++ resp.body],
       Except.error ("Failed to get LinkedIn user info: " ++ toString resp.status))
    else
      (["Authenticated as: " ++ pyGetOr (resp.json.lookup "name") "Unknown"],
       Except.ok ("urn:li:person:" ++ pyStr (resp.json.lookup "sub"))))

/-- `upload_image_to_linkedin` (`src/post_to_linkedin.py` lines 127-193).
Registers the upload; on non-200 raises before the binary PUT; otherwise PUTs
the image and accepts 200/201, returning the asset URN from step 1. -/
def upload_image_to_linkedin (reg : RegisterResp) (uploadStatus : Nat) :
    List NetCall × Except String String :=
  if reg.status ≠ 200 then
    ([NetCall.registerUploadPost],
     Except.error ("LinkedIn upload registration failed: " ++ toString reg.status))
  else if uploadStatus ≠ 200 ∧ uploadStatus ≠ 201 then
    ([NetCall.registerUploadPost, NetCall.uploadPut],
     Except.error ("LinkedIn image upload failed: " ++ toString uploadStatus))
  else
    ([NetCall.registerUploadPost, NetCall.uploadPut], Except.ok reg.asset)

/-- The post document built by `create_linkedin_post`
(`src/post_to_linkedin.py` lines 206-223): the generated text is placed
directly in the `commentary` field. -/
def build_post_payload (text : String) (image_asset_urn : String)
    (person_urn : String) : PostPayload :=
  { author := person_urn
    commentary := text
    visibility := "PUBLIC"
    lifecycleState := "PUBLISHED"
    mediaTitle := "Bioscope.AI"
    mediaId := image_asset_urn
    isReshareDisabledByAuthor := false }

/-- `create_linkedin_post` (`src/post_to_linkedin.py` lines 196-240): POSTs
the payload, accepts 200/201, otherwise raises with the status code. -/
def create_linkedin_post (text : String) (image_asset_urn : String)
    (person_urn : String) (status : Nat) :
    List NetCall × PostPayload × Except String Unit :=
  ([NetCall.publishPost], build_post_payload text image_asset_urn person_urn,
    if status ≠ 200 ∧ status ≠ 201 then
      Except.error ("LinkedIn post creation failed: " ++ toString status)
    else Except.ok ())

/-- The webhook `requests.post`: may fail at the transport level. -/
def requests_post_webhook (transportOk : Bool) : Except String Unit :=
  if transportOk then Except.ok () else Except.error "ConnectionError"

/-- Effects of one `send_slack_notification` call: payload texts POSTed,
warnings logged, and any exception escaping to the caller. -/
structure SlackEffect where
  posts : List String
  warnings : List String
  raised : Option String
deriving DecidableEq

/-- `send_slack_notification` (`src/post_to_linkedin.py` lines 243-257):
no-op without a configured webhook; otherwise POSTs `"{emoji} {message}"`
and swallows any transport failure, logging a warning. -/
def send_slack_notification (webhook_url : Option String) (message : String)
    (success : Bool) (transportOk : Bool) : SlackEffect :=
  if pyTruthyStr webhook_url = false then
    { posts := [], warnings := [], raised := none }
  else
    let payloadText := (if success then "✅" else "❌") ++ " " ++ message
    match requests_post_webhook transportOk with
    | Except.ok _ => { posts := [payloadText], warnings := [], raised := none }
    | Except.error e =>
        { posts := [payloadText]
          warnings := ["Failed to send Slack notification: " ++ e]
          raised := none }

/-- The failure message of `main`'s top-level handler
(`src/post_to_linkedin.py` line 358). -/
def failMessage (week : Int) (err : String) : String :=
  "FAILED to post Week " ++ toString week ++ ": " ++ err

/-- The success message of `main` (`src/post_to_linkedin.py` line 350). -/
def successMessage (post : Post) : String :=
  "Posted Week " ++ toString post.week ++ " " ++ post.post_type ++ ": " ++
    pyGetOr post.title "Untitled"

/-- A `RunResult` that exits with the given code having performed the given
calls and nothing else. -/
def bareExit (code : Nat) (calls : List NetCall) : RunResult :=
  { exitCode := code, calls := calls, notifyInvocations := []
    slackPayloads := [], published := [] }

/-- The `except` branch of `main` (`src/post_to_linkedin.py` lines 356-359):
log, notify failure with week number and error text, `sys.exit(1)`. -/
def failRun (cfg : Config) (post : Post) (err : String) (callsSoFar : List NetCall)
    (published : List PostPayload) (slackOk : Bool) : RunResult :=
  let msg := failMessage post.week err
  let eff := send_slack_notification cfg.slack_webhook_url msg false slackOk
  { exitCode := 1
    calls := callsSoFar ++ (if eff.posts.isEmpty then [] else [NetCall.slackPost])
    notifyInvocations := [(msg, false)]
    slackPayloads := eff.posts
    published := published }

/-- The success tail of `main` (`src/post_to_linkedin.py` lines 348-354). -/
def successRun (cfg : Config) (post : Post) (callsSoFar : List NetCall)
    (published : List PostPayload) (slackOk : Bool) : RunResult :=
  let msg := successMessage post
  let eff := send_slack_notification cfg.slack_webhook_url msg true slackOk
  { exitCode := 0
    calls := callsSoFar ++ (if eff.posts.isEmpty then [] else [NetCall.slackPost])
    notifyInvocations := [(msg, true)]
    slackPayloads := eff.posts
    published := published }

/-- The `try` block of `main` (`src/post_to_linkedin.py` lines 328-359):
identity resolution, two-phase upload, publish; any raised exception falls to
the single `except` handler. -/
def mainTry (cfg : Config) (post : Post) (post_text : String) (o : Oracle) :
    RunResult :=
  let pre := [NetCall.claudeGenerate]
  let (urnCalls, _, urnRes) := get_person_urn o.userinfoResp
  match urnRes with
  | Except.error e => failRun cfg post e (pre ++ urnCalls) [] o.slackTransportOk
  | Except.ok person_urn =>
    let (upCalls, upRes) := upload_image_to_linkedin o.registerResp o.uploadStatus
    match upRes with
    | Except.error e =>
        failRun cfg post e (pre ++ urnCalls ++ upCalls) [] o.slackTransportOk
    | Except.ok asset_urn =>
      let (pubCalls, payload, pubRes) :=
        create_linkedin_post post_text asset_urn person_urn o.publishStatus
      match pubRes with
      | Except.error e =>
          failRun cfg post e (pre ++ urnCalls ++ upCalls ++ pubCalls) [payload]
            o.slackTransportOk
      | Except.ok _ =>
          successRun cfg post (pre ++ urnCalls ++ upCalls ++ pubCalls) [payload]
            o.slackTransportOk

/-- `main` (`src/post_to_linkedin.py` lines 260-359) as a pure function of the
flags, configuration, resolved target date, calendar contents and the
external world's responses. -/
def main (args : Args) (cfg : Config) (day : TargetDay) (calendar : List Post)
    (o : Oracle) : RunResult :=
  if (POSTING_DAYS.lookup day.dayName).isNone ∧ args.force = false then
    bareExit 0 []
  else if args.dry_run = false ∧ pyTruthyStr cfg.linkedin_access_token = false then
    bareExit 1 []
  else if pyTruthyStr cfg.anthropic_api_key = false then
    bareExit 1 []
  else
    match get_todays_post calendar day.iso with
    | none => bareExit 0 []
    | some post =>
      match o.claudeResult with
      | Except.error _ => bareExit 1 [NetCall.claudeGenerate]
      | Except.ok post_text =>
        if args.dry_run then bareExit 0 [NetCall.claudeGenerate]
        else if pyTruthyStr post.image_file = false then
          bareExit 1 [NetCall.claudeGenerate]
        else if o.imageExists = false then
          bareExit 1 [NetCall.claudeGenerate]
        else mainTry cfg post post_text o

/-- Whether the character list `sub` occurs as a contiguous run inside `l`. -/
def subOccurs (sub : List Char) : List Char → Bool
  | [] => sub.isEmpty
  | c :: rest => sub.isPrefixOf (c :: rest) || subOccurs sub rest

/-- Whether the string `sub` occurs contiguously inside `s`. -/
def strOccurs (sub s : String) : Bool :=
  subOccurs sub.data s.data

/-- The run ended in the top-level `except` handler: non-zero exit and a
single failure notification carrying the week number and the error text. -/
def reportsFailure (r : RunResult) (week : Int) (err : String) : Prop :=
  r.exitCode = 1 ∧ r.notifyInvocations = [(failMessage week err, false)]

/-- Sample CLI flags: a plain non-dry, non-forced run. -/
def sampleArgs : Args := ⟨false, false⟩

/-- Sample configuration with all credentials and the webhook set. -/
def sampleCfg : Config :=
  ⟨some "sk-key", some "li-token", some "https://hooks.example/T000/B000"⟩

/-- Sample target date: a Sunday, present in the posting-day table. -/
def sampleDay : TargetDay := ⟨"2024-06-02", "sunday"⟩

/-- Sample calendar entry scheduled for the sample day. -/
def samplePost : Post := ⟨some "2024-06-02", 3, "gene", some "BRCA1", some "w3.jpg"⟩

/-- Sample calendar: a decoy entry for another date, then the sample entry. -/
def sampleCalendar : List Post := [⟨some "2024-06-04", 4, "intervention", none, none⟩, samplePost]

/-- An oracle on which every external call succeeds. -/
def oracleAllOk : Oracle :=
  ⟨Except.ok "Generated text", true,
    ⟨200, "", [("sub", "abc123"), ("name", "Don")]⟩,
    ⟨200, "", "https://upload.example/u", "urn:li:digitalmediaAsset:X1"⟩,
    201, 201, true⟩

/-- An oracle whose user-info call answers 401. -/
def oracleUserinfoFail : Oracle :=
  ⟨Except.ok "Generated text", true,
    ⟨401, "unauthorized", []⟩,
    ⟨200, "", "https://upload.example/u", "urn:li:digitalmediaAsset:X1"⟩,
    201, 201, true⟩

/-- An oracle whose upload-registration call answers 500. -/
def oracleRegisterFail : Oracle :=
  ⟨Except.ok "Generated text", true,
    ⟨200, "", [("sub", "abc123"), ("name", "Don")]⟩,
    ⟨500, "server error", "https://upload.example/u", "urn:li:digitalmediaAsset:X1"⟩,
    201, 201, true⟩

/-- An oracle on which the local image file does not exist. -/
def oracleImageMissing : Oracle :=
  ⟨Except.ok "Generated text", false,
    ⟨200, "", [("sub", "abc123"), ("name", "Don")]⟩,
    ⟨200, "", "https://upload.example/u", "urn:li:digitalmediaAsset:X1"⟩,
    201, 201, true⟩

/-! ### Helper lemmas -/

theorem isPrefixOf_append_self (l t : List Char) : l.isPrefixOf (l ++ t) = true := by
  induction l with
  | nil => simp [List.isPrefixOf]
  | cons c cs ih => simp [List.isPrefixOf, ih]

theorem subOccurs_of_isPrefixOf {sub l : List Char} (h : sub.isPrefixOf l = true) :
    subOccurs sub l = true := by
  cases l with
  | nil =>
      cases sub with
      | nil => rfl
      | cons c cs => simp [List.isPrefixOf] at h
  | cons c rest => simp [subOccurs, h]

theorem subOccurs_append_self (a sub b : List Char) :
    subOccurs sub (a ++ sub ++ b) = true := by
  induction a with
  | nil => exact subOccurs_of_isPrefixOf (isPrefixOf_append_self sub b)
  | cons c cs ih =>
      have ih' : subOccurs sub (cs ++ (sub ++ b)) = true := by
        rw [← List.append_assoc]
        exact ih
      simp [subOccurs, ih']

theorem strOccurs_append_self (a s b : String) : strOccurs s (a ++ s ++ b) = true := by
  have hd : (a ++ s ++ b).data = a.data ++ s.data ++ b.data := by
    simp [String.data_append]
  unfold strOccurs
  rw [hd]
  exact subOccurs_append_self _ _ _

theorem strOccurs_failMessage (pre : String) (week : Int) (err : String) :
    strOccurs (toString week) (pre ++ failMessage week err) = true := by
  have h : pre ++ failMessage week err =
      (pre ++ "FAILED to post Week ") ++ toString week ++ (": " ++ err) := by
    simp [failMessage, String.append_assoc]
  rw [h]
  exact strOccurs_append_self _ _ _

theorem main_eq_mainTry (args : Args) (cfg : Config) (day : TargetDay)
    (calendar : List Post) (o : Oracle) (post : Post) (post_text : String)
    (hday : ¬(((POSTING_DAYS.lookup day.dayName).isNone = true) ∧ args.force = false))
    (hdry : args.dry_run = false)
    (htok : pyTruthyStr cfg.linkedin_access_token = true)
    (hkey : pyTruthyStr cfg.anthropic_api_key = true)
    (hpost : get_todays_post calendar day.iso = some post)
    (hclaude : o.claudeResult = Except.ok post_text)
    (himgf : pyTruthyStr post.image_file = true)
    (himg : o.imageExists = true) :
    main args cfg day calendar o = mainTry cfg post post_text o := by
  unfold main
  rw [if_neg hday]
  simp [hdry, htok, hkey, hpost, hclaude, himgf, himg]

theorem mainTry_userinfo_failure (cfg : Config) (post : Post) (pt : String)
    (o : Oracle) (h : o.userinfoResp.status ≠ 200) :
    mainTry cfg post pt o =
      failRun cfg post
        ("Failed to get LinkedIn user info: " ++ toString o.userinfoResp.status)
        [NetCall.claudeGenerate, NetCall.userinfoGet] [] o.slackTransportOk := by
  simp [mainTry, get_person_urn, h]

theorem mainTry_register_failure (cfg : Config) (post : Post) (pt : String)
    (o : Oracle) (hu : o.userinfoResp.status = 200)
    (hr : o.registerResp.status ≠ 200) :
    mainTry cfg post pt o =
      failRun cfg post
        ("LinkedIn upload registration failed: " ++ toString o.registerResp.status)
        [NetCall.claudeGenerate, NetCall.userinfoGet, NetCall.registerUploadPost]
        [] o.slackTransportOk := by
  simp [mainTry, get_person_urn, upload_image_to_linkedin, hu, hr]

theorem mainTry_upload_failure (cfg : Config) (post : Post) (pt : String)
    (o : Oracle) (hu : o.userinfoResp.status = 200)
    (hr : o.registerResp.status = 200)
    (hup : o.uploadStatus ≠ 200 ∧ o.uploadStatus ≠ 201) :
    mainTry cfg post pt o =
      failRun cfg post
        ("LinkedIn image upload failed: " ++ toString o.uploadStatus)
        [NetCall.claudeGenerate, NetCall.userinfoGet, NetCall.registerUploadPost,
          NetCall.uploadPut] [] o.slackTransportOk := by
  simp [mainTry, get_person_urn, upload_image_to_linkedin, hu, hr, hup.1, hup.2]

theorem mainTry_publish_failure (cfg : Config) (post : Post) (pt : String)
    (o : Oracle) (hu : o.userinfoResp.status = 200)
    (hr : o.registerResp.status = 200)
    (hup : o.uploadStatus = 200 ∨ o.uploadStatus = 201)
    (hpub : o.publishStatus ≠ 200 ∧ o.publishStatus ≠ 201) :
    mainTry cfg post pt o =
      failRun cfg post
        ("LinkedIn post creation failed: " ++ toString o.publishStatus)
        [NetCall.claudeGenerate, NetCall.userinfoGet, NetCall.registerUploadPost,
          NetCall.uploadPut, NetCall.publishPost]
        [build_post_payload pt o.registerResp.asset
          ("urn:li:person:" ++ pyStr (o.userinfoResp.json.lookup "sub"))]
        o.slackTransportOk := by
  rcases hup with h | h <;>
    simp [mainTry, get_person_urn, upload_image_to_linkedin, create_linkedin_post,
      hu, hr, h, hpub.1, hpub.2]

theorem mainTry_success (cfg : Config) (post : Post) (pt : String)
    (o : Oracle) (hu : o.userinfoResp.status = 200)
    (hr : o.registerResp.status = 200)
    (hup : o.uploadStatus = 200 ∨ o.uploadStatus = 201)
    (hpub : o.publishStatus = 200 ∨ o.publishStatus = 201) :
    mainTry cfg post pt o =
      successRun cfg post
        [NetCall.claudeGenerate, NetCall.userinfoGet, NetCall.registerUploadPost,
          NetCall.uploadPut, NetCall.publishPost]
        [build_post_payload pt o.registerResp.asset
          ("urn:li:person:" ++ pyStr (o.userinfoResp.json.lookup "sub"))]
        o.slackTransportOk := by
  rcases hup with h | h <;> rcases hpub with h2 | h2 <;>
    simp [mainTry, get_person_urn, upload_image_to_linkedin, create_linkedin_post,
      hu, hr, h, h2]

theorem main_invalid_image (args : Args) (cfg : Config) (day : TargetDay)
    (calendar : List Post) (o : Oracle) (post : Post) (post_text : String)
    (hday : ¬(((POSTING_DAYS.lookup day.dayName).isNone = true) ∧ args.force = false))
    (hdry : args.dry_run = false)
    (htok : pyTruthyStr cfg.linkedin_access_token = true)
    (hkey : pyTruthyStr cfg.anthropic_api_key = true)
    (hpost : get_todays_post calendar day.iso = some post)
    (hclaude : o.claudeResult = Except.ok post_text)
    (himg : pyTruthyStr post.image_file = false ∨ o.imageExists = false) :
    main args cfg day calendar o = bareExit 1 [NetCall.claudeGenerate] := by
  unfold main
  rw [if_neg hday]
  rcases himg with h | h
  · simp [hdry, htok, hkey, hpost, hclaude, h]
  · by_cases h2 : pyTruthyStr post.image_file = false
    · simp [hdry, htok, hkey, hpost, hclaude, h2]
    · simp [hdry, htok, hkey, hpost, hclaude, h2, h]

theorem main_cases (args : Args) (cfg : Config) (day : TargetDay)
    (calendar : List Post) (o : Oracle) :
    main args cfg day calendar o = bareExit 0 [] ∨
    main args cfg day calendar o = bareExit 1 [] ∨
    main args cfg day calendar o = bareExit 0 [NetCall.claudeGenerate] ∨
    main args cfg day calendar o = bareExit 1 [NetCall.claudeGenerate] ∨
    ∃ post post_text, get_todays_post calendar day.iso = some post ∧
      o.claudeResult = Except.ok post_text ∧ args.dry_run = false ∧
      main args cfg day calendar o = mainTry cfg post post_text o := by
  by_cases c1 : ((POSTING_DAYS.lookup day.dayName).isNone = true) ∧ args.force = false
  · refine Or.inl ?_
    unfold main
    rw [if_pos c1]
  · by_cases c2 : args.dry_run = false ∧ pyTruthyStr cfg.linkedin_access_token = false
    · refine Or.inr (Or.inl ?_)
      unfold main
      rw [if_neg c1, if_pos c2]
    · by_cases c3 : pyTruthyStr cfg.anthropic_api_key = false
      · refine Or.inr (Or.inl ?_)
        unfold main
        rw [if_neg c1, if_neg c2, if_pos c3]
      · cases hcal : get_todays_post calendar day.iso with
        | none =>
            refine Or.inl ?_
            unfold main
            simp only [if_neg c1, if_neg c2, if_neg c3, hcal]
        | some post =>
          cases hcl : o.claudeResult with
          | error e =>
              refine Or.inr (Or.inr (Or.inr (Or.inl ?_)))
              unfold main
              simp only [if_neg c1, if_neg c2, if_neg c3, hcal, hcl]
          | ok pt =>
            by_cases cd : args.dry_run = true
            · refine Or.inr (Or.inr (Or.inl ?_))
              unfold main
              simp only [if_neg c1, if_neg c2, if_neg c3, hcal, hcl, if_pos cd]
            · have cd' : args.dry_run = false := by
                cases hb : args.dry_run
                · rfl
                · exact absurd hb cd
              by_cases ci : pyTruthyStr post.image_file = false
              · refine Or.inr (Or.inr (Or.inr (Or.inl ?_)))
                unfold main
                simp only [if_neg c1, if_neg c2, if_neg c3, hcal, hcl, if_neg cd,
                  if_pos ci]
              · by_cases ce : o.imageExists = false
                · refine Or.inr (Or.inr (Or.inr (Or.inl ?_)))
                  unfold main
                  simp only [if_neg c1, if_neg c2, if_neg c3, hcal, hcl, if_neg cd,
                    if_neg ci, if_pos ce]
                · refine Or.inr (Or.inr (Or.inr (Or.inr
                    ⟨post, pt, rfl, rfl, cd', ?_⟩)))
                  unfold main
                  simp only [if_neg c1, if_neg c2, if_neg c3, hcal, hcl, if_neg cd,
                    if_neg ci, if_neg ce]

theorem mainTry_published_commentary (cfg : Config) (post : Post) (pt : String)
    (o : Oracle) (p : PostPayload)
    (hp : p ∈ (mainTry cfg post pt o).published) : p.commentary = pt := by
  by_cases hu : o.userinfoResp.status = 200
  · by_cases hr : o.registerResp.status = 200
    · by_cases h200 : o.uploadStatus = 200
      · by_cases hpub : o.publishStatus = 200 ∨ o.publishStatus = 201
        · rw [mainTry_success cfg post pt o hu hr (Or.inl h200) hpub] at hp
          simp [successRun] at hp
          simp [hp, build_post_payload]
        · have hpub' : o.publishStatus ≠ 200 ∧ o.publishStatus ≠ 201 := by
            constructor
            · intro hx
              exact hpub (Or.inl hx)
            · intro hx
              exact hpub (Or.inr hx)
          rw [mainTry_publish_failure cfg post pt o hu hr (Or.inl h200) hpub'] at hp
          simp [failRun] at hp
          simp [hp, build_post_payload]
      · by_cases h201 : o.uploadStatus = 201
        · by_cases hpub : o.publishStatus = 200 ∨ o.publishStatus = 201
          · rw [mainTry_success cfg post pt o hu hr (Or.inr h201) hpub] at hp
            simp [successRun] at hp
            simp [hp, build_post_payload]
          · have hpub' : o.publishStatus ≠ 200 ∧ o.publishStatus ≠ 201 := by
              constructor
              · intro hx
                exact hpub (Or.inl hx)
              · intro hx
                exact hpub (Or.inr hx)
            rw [mainTry_publish_failure cfg post pt o hu hr (Or.inr h201) hpub'] at hp
            simp [failRun] at hp
            simp [hp, build_post_payload]
        · rw [mainTry_upload_failure cfg post pt o hu hr ⟨h200, h201⟩] at hp
          simp [failRun] at hp
    · rw [mainTry_register_failure cfg post pt o hu hr] at hp
      simp [failRun] at hp
  · rw [mainTry_userinfo_failure cfg post pt o hu] at hp
    simp [failRun] at hp

/-! ### Claim theorems -/

/-- C3: for every target date whose weekday name is not a key of the
weekday-schedule table, when the force flag is not set, the run performs zero
network calls and exits with status 0. -/
theorem main_unscheduled_day_noop (args : Args) (cfg : Config) (day : TargetDay)
    (calendar : List Post) (o : Oracle)
    (h1 : (POSTING_DAYS.lookup day.dayName).isNone = true)
    (h2 : args.force = false) :
    (main args cfg day calendar o).exitCode = 0 ∧
    (main args cfg day calendar o).calls = [] := by
  unfold main
  rw [if_pos ⟨h1, h2⟩]
  exact ⟨rfl, rfl⟩

/-- Witness for C3: a Monday run without the force flag exits 0 with no
network call. -/
theorem main_unscheduled_day_noop_witness :
    (main sampleArgs sampleCfg ⟨"2024-06-03", "monday"⟩ sampleCalendar
      oracleAllOk).exitCode = 0 ∧
    (main sampleArgs sampleCfg ⟨"2024-06-03", "monday"⟩ sampleCalendar
      oracleAllOk).calls = [] :=
  main_unscheduled_day_noop sampleArgs sampleCfg ⟨"2024-06-03", "monday"⟩
    sampleCalendar oracleAllOk (by decide) (by decide)

/-- C4: with the dry-run flag set, the upload and publish steps are never
invoked: the run makes no user-info, upload-registration, binary-upload or
publish network call and publishes nothing, for every calendar content. -/
theorem main_dry_run_never_uploads_or_publishes (args : Args) (cfg : Config)
    (day : TargetDay) (calendar : List Post) (o : Oracle)
    (h : args.dry_run = true) :
    NetCall.userinfoGet ∉ (main args cfg day calendar o).calls ∧
    NetCall.registerUploadPost ∉ (main args cfg day calendar o).calls ∧
    NetCall.uploadPut ∉ (main args cfg day calendar o).calls ∧
    NetCall.publishPost ∉ (main args cfg day calendar o).calls ∧
    (main args cfg day calendar o).published = [] := by
  rcases main_cases args cfg day calendar o with hk | hk | hk | hk |
    ⟨post, pt, hcal, hcl, hdry, hk⟩
  · rw [hk]; decide
  · rw [hk]; decide
  · rw [hk]; decide
  · rw [hk]; decide
  · rw [h] at hdry
    exact absurd hdry (by decide)

/-- Witness for C4: a dry run on a scheduled day with a matching entry makes
none of the four publish-path calls. -/
theorem main_dry_run_never_uploads_or_publishes_witness :
    NetCall.publishPost ∉
      (main ⟨true, false⟩ sampleCfg sampleDay sampleCalendar oracleAllOk).calls ∧
    (main ⟨true, false⟩ sampleCfg sampleDay sampleCalendar oracleAllOk).published
      = [] :=
  ⟨(main_dry_run_never_uploads_or_publishes ⟨true, false⟩ sampleCfg sampleDay
      sampleCalendar oracleAllOk (by decide)).2.2.2.1,
   (main_dry_run_never_uploads_or_publishes ⟨true, false⟩ sampleCfg sampleDay
      sampleCalendar oracleAllOk (by decide)).2.2.2.2⟩

/-- C5: the calendar lookup returns the first entry in list order whose
`date` field equals the target ISO string (exact equality), and returns
`none` rather than an error when no entry matches. -/
theorem get_todays_post_first_match (calendar : List Post) (t : String) :
    (∀ p, get_todays_post calendar t = some p →
       p.date = some t ∧
       ∃ l1 l2, calendar = l1 ++ p :: l2 ∧ ∀ q ∈ l1, q.date ≠ some t) ∧
    (get_todays_post calendar t = none ↔ ∀ p ∈ calendar, p.date ≠ some t) := by
  induction calendar with
  | nil =>
      exact ⟨fun p hp => by simp [get_todays_post] at hp, by simp [get_todays_post]⟩
  | cons p rest ih =>
      by_cases h : p.date = some t
      · refine ⟨fun q hq => ?_, ?_⟩
        · rw [get_todays_post, if_pos (by simp [h])] at hq
          cases hq
          exact ⟨h, [], rest, rfl, by simp⟩
        · rw [get_todays_post, if_pos (by simp [h])]
          constructor
          · intro hc
            exact Option.noConfusion hc
          · intro hall
            exact absurd h (hall p (List.mem_cons_self _ _))
      · have hne : ¬(p.date == some t) = true := by simp [h]
        refine ⟨fun q hq => ?_, ?_⟩
        · rw [get_todays_post, if_neg hne] at hq
          obtain ⟨hd, l1, l2, heq, hall⟩ := ih.1 q hq
          refine ⟨hd, p :: l1, l2, by rw [heq]; rfl, ?_⟩
          intro r hr
          rcases List.mem_cons.1 hr with rfl | hr'
          · exact h
          · exact hall r hr'
        · rw [get_todays_post, if_neg hne]
          rw [ih.2]
          constructor
          · intro hall r hr
            rcases List.mem_cons.1 hr with rfl | hr'
            · exact h
            · exact hall r hr'
          · intro hall r hr
            exact hall r (List.mem_cons_of_mem _ hr)

/-- Witness for C5: on the sample calendar, a date matching no entry yields
`none`, and the sample date yields the matching entry. -/
theorem get_todays_post_first_match_witness :
    get_todays_post sampleCalendar "2024-06-09" = none :=
  (get_todays_post_first_match sampleCalendar "2024-06-09").2.mpr (by decide)

/-- C6: on a scheduled (or forced) day, a missing language-model key, or a
missing social-network token in a non-dry run, terminates the process with
exit code 1 before any network call; in dry-run mode the token is not
required. -/
theorem main_missing_credentials_exit (args : Args) (cfg : Config)
    (day : TargetDay) (calendar : List Post) (o : Oracle)
    (hday : ¬(((POSTING_DAYS.lookup day.dayName).isNone = true) ∧
      args.force = false)) :
    ((pyTruthyStr cfg.anthropic_api_key = false ∨
        (args.dry_run = false ∧ pyTruthyStr cfg.linkedin_access_token = false)) →
      (main args cfg day calendar o).exitCode = 1 ∧
      (main args cfg day calendar o).calls = []) ∧
    (args.dry_run = true → pyTruthyStr cfg.anthropic_api_key = true →
      (∃ t, o.claudeResult = Except.ok t) →
      (main args cfg day calendar o).exitCode = 0) := by
  constructor
  · intro hmiss
    unfold main
    rw [if_neg hday]
    by_cases h2 : args.dry_run = false ∧ pyTruthyStr cfg.linkedin_access_token = false
    · rw [if_pos h2]
      exact ⟨rfl, rfl⟩
    · rw [if_neg h2]
      have hkey : pyTruthyStr cfg.anthropic_api_key = false := by
        rcases hmiss with h | h
        · exact h
        · exact absurd h h2
      rw [if_pos hkey]
      exact ⟨rfl, rfl⟩
  · rintro hdry hkey ⟨t, ht⟩
    unfold main
    rw [if_neg hday]
    rw [if_neg (by simp [hdry]), if_neg (by simp [hkey])]
    cases hcal : get_todays_post calendar day.iso with
    | none =>
        simp only [hcal]
        rfl
    | some post =>
        simp only [hcal, ht, if_pos hdry]
        rfl

/-- Witness for C6: with the language-model key unset on a Sunday run, the
process exits 1 with no network call; a dry run without the social token
still exits 0. -/
theorem main_missing_credentials_exit_witness :
    ((main sampleArgs ⟨none, some "li-token", none⟩ sampleDay sampleCalendar
        oracleAllOk).exitCode = 1 ∧
     (main sampleArgs ⟨none, some "li-token", none⟩ sampleDay sampleCalendar
        oracleAllOk).calls = []) ∧
    (main ⟨true, false⟩ ⟨some "sk-key", none, none⟩ sampleDay sampleCalendar
        oracleAllOk).exitCode = 0 :=
  ⟨(main_missing_credentials_exit sampleArgs ⟨none, some "li-token", none⟩
      sampleDay sampleCalendar oracleAllOk (by decide)).1 (Or.inl (by decide)),
   (main_missing_credentials_exit ⟨true, false⟩ ⟨some "sk-key", none, none⟩
      sampleDay sampleCalendar oracleAllOk (by decide)).2 (by decide) (by decide)
      ⟨"Generated text", rfl⟩⟩

/-- C1 counterexample: in a non-dry run that generated post text, a failing
image-path validation exits non-zero but sends no Notifier message at all,
contradicting the claim that such failures are reported to the Notifier. -/
theorem main_image_validation_failure_not_notified :
    (main sampleArgs sampleCfg sampleDay sampleCalendar
      oracleImageMissing).exitCode = 1 ∧
    (main sampleArgs sampleCfg sampleDay sampleCalendar
      oracleImageMissing).notifyInvocations = [] ∧
    (main sampleArgs sampleCfg sampleDay sampleCalendar
      oracleImageMissing).slackPayloads = [] := by
  decide

/-- C1 (amended): in a non-dry run that generated post text, any exception
raised from identity resolution, upload or publish is caught once at the top
level and reported to the Notifier as a failure message carrying the week
number and the error text, with exit code 1; a failing image-path validation
also exits 1, but before the `try` block, so it is logged without any
Notifier report. -/
theorem main_failure_caught_and_notified (args : Args) (cfg : Config)
    (day : TargetDay) (calendar : List Post) (o : Oracle) (post : Post)
    (post_text : String)
    (hday : ¬(((POSTING_DAYS.lookup day.dayName).isNone = true) ∧
      args.force = false))
    (hdry : args.dry_run = false)
    (htok : pyTruthyStr cfg.linkedin_access_token = true)
    (hkey : pyTruthyStr cfg.anthropic_api_key = true)
    (hpost : get_todays_post calendar day.iso = some post)
    (hclaude : o.claudeResult = Except.ok post_text) :
    (pyTruthyStr post.image_file = true → o.imageExists = true →
      (o.userinfoResp.status ≠ 200 →
        reportsFailure (main args cfg day calendar o) post.week
          ("Failed to get LinkedIn user info: " ++
            toString o.userinfoResp.status)) ∧
      (o.userinfoResp.status = 200 → o.registerResp.status ≠ 200 →
        reportsFailure (main args cfg day calendar o) post.week
          ("LinkedIn upload registration failed: " ++
            toString o.registerResp.status)) ∧
      (o.userinfoResp.status = 200 → o.registerResp.status = 200 →
        o.uploadStatus ≠ 200 ∧ o.uploadStatus ≠ 201 →
        reportsFailure (main args cfg day calendar o) post.week
          ("LinkedIn image upload failed: " ++ toString o.uploadStatus)) ∧
      (o.userinfoResp.status = 200 → o.registerResp.status = 200 →
        (o.uploadStatus = 200 ∨ o.uploadStatus = 201) →
        o.publishStatus ≠ 200 ∧ o.publishStatus ≠ 201 →
        reportsFailure (main args cfg day calendar o) post.week
          ("LinkedIn post creation failed: " ++ toString o.publishStatus))) ∧
    ((pyTruthyStr post.image_file = false ∨ o.imageExists = false) →
      (main args cfg day calendar o).exitCode = 1 ∧
      (main args cfg day calendar o).notifyInvocations = []) := by
  constructor
  · intro himgf himg
    have hmt := main_eq_mainTry args cfg day calendar o post post_text hday hdry
      htok hkey hpost hclaude himgf himg
    refine ⟨?_, ?_, ?_, ?_⟩
    · intro hu
      rw [reportsFailure, hmt, mainTry_userinfo_failure cfg post post_text o hu]
      exact ⟨rfl, rfl⟩
    · intro hu hr
      rw [reportsFailure, hmt, mainTry_register_failure cfg post post_text o hu hr]
      exact ⟨rfl, rfl⟩
    · intro hu hr hup
      rw [reportsFailure, hmt, mainTry_upload_failure cfg post post_text o hu hr hup]
      exact ⟨rfl, rfl⟩
    · intro hu hr hup hpub
      rw [reportsFailure, hmt,
        mainTry_publish_failure cfg post post_text o hu hr hup hpub]
      exact ⟨rfl, rfl⟩
  · intro himg
    rw [main_invalid_image args cfg day calendar o post post_text hday hdry htok
      hkey hpost hclaude himg]
    exact ⟨rfl, rfl⟩

/-- Witness for C1: on a run whose user-info call answers 401, the failure is
reported to the Notifier with the week number and error text and the run
exits 1. -/
theorem main_failure_caught_and_notified_witness :
    reportsFailure
      (main sampleArgs sampleCfg sampleDay sampleCalendar oracleUserinfoFail)
      samplePost.week
      ("Failed to get LinkedIn user info: " ++
        toString oracleUserinfoFail.userinfoResp.status) :=
  ((main_failure_caught_and_notified sampleArgs sampleCfg sampleDay
      sampleCalendar oracleUserinfoFail samplePost "Generated text" (by decide)
      (by decide) (by decide) (by decide) (by decide) rfl).1 (by decide)
      (by decide)).1 (by decide)

/-- C2: a non-200 upload-registration response means no publish call is
attempted, nothing is published, the process exits 1, and, when a webhook URL
is configured, the failure payload POSTed to it contains the entry's week
number; without a webhook no payload is sent. -/
theorem main_registration_failure_aborts (args : Args) (cfg : Config)
    (day : TargetDay) (calendar : List Post) (o : Oracle) (post : Post)
    (post_text : String)
    (hday : ¬(((POSTING_DAYS.lookup day.dayName).isNone = true) ∧
      args.force = false))
    (hdry : args.dry_run = false)
    (htok : pyTruthyStr cfg.linkedin_access_token = true)
    (hkey : pyTruthyStr cfg.anthropic_api_key = true)
    (hpost : get_todays_post calendar day.iso = some post)
    (hclaude : o.claudeResult = Except.ok post_text)
    (himgf : pyTruthyStr post.image_file = true)
    (himg : o.imageExists = true)
    (hu : o.userinfoResp.status = 200)
    (hr : o.registerResp.status ≠ 200) :
    NetCall.publishPost ∉ (main args cfg day calendar o).calls ∧
    NetCall.uploadPut ∉ (main args cfg day calendar o).calls ∧
    (main args cfg day calendar o).published = [] ∧
    (main args cfg day calendar o).exitCode = 1 ∧
    (pyTruthyStr cfg.slack_webhook_url = true →
      (main args cfg day calendar o).slackPayloads =
        ["❌" ++ " " ++ failMessage post.week
          ("LinkedIn upload registration failed: " ++
            toString o.registerResp.status)] ∧
      strOccurs (toString post.week)
        ("❌" ++ " " ++ failMessage post.week
          ("LinkedIn upload registration failed: " ++
            toString o.registerResp.status)) = true) ∧
    (pyTruthyStr cfg.slack_webhook_url = false →
      (main args cfg day calendar o).slackPayloads = []) := by
  have hmt := main_eq_mainTry args cfg day calendar o post post_text hday hdry
    htok hkey hpost hclaude himgf himg
  rw [hmt, mainTry_register_failure cfg post post_text o hu hr]
  by_cases hw : pyTruthyStr cfg.slack_webhook_url = false
  · simp [failRun, send_slack_notification, hw]
  · have hw' : pyTruthyStr cfg.slack_webhook_url = true := by
      cases hb : pyTruthyStr cfg.slack_webhook_url
      · exact absurd hb hw
      · rfl
    cases htr : o.slackTransportOk
    · simp [failRun, send_slack_notification, requests_post_webhook, hw', htr]
      exact strOccurs_failMessage ("❌" ++ " ") post.week _
    · simp [failRun, send_slack_notification, requests_post_webhook, hw', htr]
      exact strOccurs_failMessage ("❌" ++ " ") post.week _

/-- Witness for C2: on a concrete run whose registration call answers 500,
no publish or upload PUT happens and the run exits 1. -/
theorem main_registration_failure_aborts_witness :
    NetCall.publishPost ∉
      (main sampleArgs sampleCfg sampleDay sampleCalendar oracleRegisterFail).calls ∧
    (main sampleArgs sampleCfg sampleDay sampleCalendar oracleRegisterFail).exitCode
      = 1 :=
  ⟨(main_registration_failure_aborts sampleArgs sampleCfg sampleDay
      sampleCalendar oracleRegisterFail samplePost "Generated text" (by decide)
      (by decide) (by decide) (by decide) (by decide) rfl (by decide) (by decide)
      (by decide) (by decide)).1,
   (main_registration_failure_aborts sampleArgs sampleCfg sampleDay
      sampleCalendar oracleRegisterFail samplePost "Generated text" (by decide)
      (by decide) (by decide) (by decide) (by decide) rfl (by decide) (by decide)
      (by decide) (by decide)).2.2.2.1⟩

/-- C7 counterexample: for a 401 response with body `unauthorized`, the
raised error message carries the status code but does not contain the body,
refuting the claim that the raised error carries both status code and body. -/
theorem get_person_urn_error_lacks_body :
    (get_person_urn ⟨401, "unauthorized", []⟩).2.2 =
      Except.error "Failed to get LinkedIn user info: 401" ∧
    strOccurs "unauthorized" "Failed to get LinkedIn user info: 401" = false := by
  constructor
  · rfl
  · decide

/-- C7 (amended): identity resolution issues exactly one GET to the user-info
endpoint; on a non-200 status it fails with an error carrying the status
code, the response body appearing only in the error log; on 200 it extracts
the `sub` field and returns it formatted as `urn:li:person:<id>`. -/
theorem get_person_urn_spec (resp : HttpResp) :
    (get_person_urn resp).1 = [NetCall.userinfoGet] ∧
    (resp.status ≠ 200 →
      (get_person_urn resp).2.2 =
        Except.error ("Failed to get LinkedIn user info: " ++
          toString resp.status) ∧
      (get_person_urn resp).2.1 = ["Failed to get user info: " ++ resp.body]) ∧
    (resp.status = 200 →
      (get_person_urn resp).2.2 =
        Except.ok ("urn:li:person:" ++ pyStr (resp.json.lookup "sub"))) := by
  refine ⟨rfl, ?_, ?_⟩
  · intro h
    simp [get_person_urn, h]
  · intro h
    simp [get_person_urn, h]

/-- Witness for C7: on the 401 response, the body is written to the error
log line. -/
theorem get_person_urn_spec_witness :
    (get_person_urn ⟨401, "unauthorized", []⟩).2.1 =
      ["Failed to get user info: " ++ "unauthorized"] :=
  ((get_person_urn_spec ⟨401, "unauthorized", []⟩).2.1 (by decide)).2

/-- C8: the notify operation never raises to its caller; with no webhook URL
configured it is a silent no-op making no outbound call; any transport
failure is swallowed, with only a logged warning. -/
theorem send_slack_notification_never_raises (webhook : Option String)
    (message : String) (success : Bool) (transportOk : Bool) :
    (send_slack_notification webhook message success transportOk).raised = none ∧
    (pyTruthyStr webhook = false →
      send_slack_notification webhook message success transportOk =
        ⟨[], [], none⟩) ∧
    (pyTruthyStr webhook = true → transportOk = false →
      (send_slack_notification webhook message success transportOk).posts =
        [(if success then "✅" else "❌") ++ " " ++ message] ∧
      (send_slack_notification webhook message success transportOk).warnings
        ≠ []) := by
  by_cases h : pyTruthyStr webhook = false
  · simp [send_slack_notification, h]
  · have h' : pyTruthyStr webhook = true := by
      cases hb : pyTruthyStr webhook
      · exact absurd hb h
      · rfl
    cases transportOk <;>
      simp [send_slack_notification, requests_post_webhook, h', h]

/-- Witness for C8: with no webhook configured, notification of a message is
a silent no-op; with one configured and a failing transport, nothing is
raised. -/
theorem send_slack_notification_never_raises_witness :
    send_slack_notification none "posted" true false = ⟨[], [], none⟩ ∧
    (send_slack_notification (some "https://hooks.example/T000/B000") "posted"
      false false).raised = none :=
  ⟨(send_slack_notification_never_raises none "posted" true false).2.1
      (by decide),
   (send_slack_notification_never_raises (some "https://hooks.example/T000/B000")
      "posted" false false).1⟩

/-- C9: the publish step places the generated text verbatim in the post's
`commentary` field: no truncation or length check is applied even though a
3000-character `MAX_POST_LENGTH` is configured, and every payload a run
publishes carries exactly the language model's output. -/
theorem publish_commentary_verbatim :
    MAX_POST_LENGTH = 3000 ∧
    (∀ text asset urn, (build_post_payload text asset urn).commentary = text) ∧
    (∀ args cfg day calendar o p, p ∈ (main args cfg day calendar o).published →
      o.claudeResult = Except.ok p.commentary) := by
  refine ⟨rfl, fun text asset urn => rfl, ?_⟩
  intro args cfg day calendar o p hp
  rcases main_cases args cfg day calendar o with hk | hk | hk | hk |
    ⟨post, pt, hcal, hcl, hdry, hk⟩
  · rw [hk] at hp
    simp [bareExit] at hp
  · rw [hk] at hp
    simp [bareExit] at hp
  · rw [hk] at hp
    simp [bareExit] at hp
  · rw [hk] at hp
    simp [bareExit] at hp
  · rw [hk] at hp
    rw [hcl, mainTry_published_commentary cfg post pt o p hp]

/-- Witness for C9: the fully successful sample run publishes a payload whose
commentary is exactly the model's generated text. -/
theorem publish_commentary_verbatim_witness :
    oracleAllOk.claudeResult =
      Except.ok (build_post_payload "Generated text" "urn:li:digitalmediaAsset:X1"
        ("urn:li:person:" ++ "abc123")).commentary :=
  publish_commentary_verbatim.2.2 sampleArgs sampleCfg sampleDay sampleCalendar
    oracleAllOk _ (by decide)

/-- C10: a 200 user-info response whose body lacks the `sub` field still
yields a URN with the `urn:li:person:` prefix: the placeholder `None` is
embedded in it rather than an error being raised. -/
theorem get_person_urn_missing_sub (resp : HttpResp)
    (h200 : resp.status = 200) (hsub : resp.json.lookup "sub" = none) :
    (get_person_urn resp).2.2 = Except.ok ("urn:li:person:" ++ "None") := by
  simp [get_person_urn, h200, hsub, pyStr]

/-- Witness for C10: the empty-body 200 response yields
`urn:li:person:None`. -/
theorem get_person_urn_missing_sub_witness :
    (get_person_urn ⟨200, "", []⟩).2.2 = Except.ok ("urn:li:person:" ++ "None") :=
  get_person_urn_missing_sub ⟨200, "", []⟩ rfl rfl

end LinkedInAutoPosts
